import Mathlib

/-!
Verification of the Remote Config template/version validation and
normalization layer (`src/remote-config/remote-config.ts`).

The embedding models JavaScript runtime values with an inductive `JsValue`
(numbers as unreduced decimals — `NaN`/`Infinity` and IEEE rounding are
outside the fragment the normalizer's claims exercise), the validator
primitives from
`utils/validator` (not part of the sources; modelled from the spec, §4.1),
the JavaScript built-ins the source leans on (`JSON.parse`, `JSON.stringify`,
`Number(...)`, `Number.isInteger`, `new Date(...).toUTCString()`) on that
fragment, and then the two normalizer classes and the service facade
operations as total Lean functions returning `Except`.
-/

set_option autoImplicit false

/-- A JavaScript number on the decimal fragment this layer handles: the value
`mant / 10 ^ scale`, kept unreduced (`NaN`/`Infinity` and IEEE rounding are
outside that fragment). -/
structure JsNum where
  mant : ℤ
  scale : ℕ
deriving Repr, DecidableEq

/-- A JavaScript runtime value, as far as the normalization layer can observe
it: `undefined`, `null`, booleans, numbers (decimal fragment), strings, arrays
and plain objects (field lists; `getField` resolves duplicate keys to the last
one, as `JSON.parse` does). -/
inductive JsValue where
  | vUndefined : JsValue
  | vNull : JsValue
  | vBool (b : Bool) : JsValue
  | vNum (n : JsNum) : JsValue
  | vStr (s : String) : JsValue
  | vArr (elems : List JsValue) : JsValue
  | vObj (fields : List (String × JsValue)) : JsValue

/-- Property access `v[k]`: the last binding of `k` in an object, `undefined`
on a missing key or on a non-object receiver. -/
def JsValue.getField : JsValue → String → JsValue
  | .vObj fields, k => fields.foldl (fun acc p => if p.1 = k then p.2 else acc) .vUndefined
  | _, _ => .vUndefined

/-- True exactly on `undefined` (models `typeof x !== 'undefined'` guards). -/
def JsValue.isUndef : JsValue → Bool
  | .vUndefined => true
  | _ => false

/-- The underlying string of a string value (`""` on non-strings; only applied
under a string-typed guard in the embedding). -/
def JsValue.asString : JsValue → String
  | .vStr s => s
  | _ => ""

/-- The underlying boolean of a boolean value (only applied under a guard). -/
def JsValue.asBool : JsValue → Bool
  | .vBool b => b
  | _ => false

/-! ### Validator primitives

Modelled from the spec: the validator module `utils/validator` is not among
the sources; §4.1 of the spec describes each predicate, and the definitions
below follow those words. -/

/-- Modelled from the spec: `isNonEmptyString(v)` is true iff `v` is a string
type and its length is positive. -/
def isNonEmptyString (v : JsValue) : Bool :=
  match v with
  | .vStr s => !(s == "")
  | _ => false

/-- Modelled from the spec: `isNonNullObject(v)` is true iff `v` is an object
type, not null and not an array. -/
def isNonNullObject (v : JsValue) : Bool :=
  match v with
  | .vObj _ => true
  | _ => false

/-- Modelled from the spec: `isArray(v)` is true iff `v` is a sequence
container. -/
def isArray (v : JsValue) : Bool :=
  match v with
  | .vArr _ => true
  | _ => false

/-- Modelled from the spec: `isNumber(v)` is true iff `v` is a numeric type. -/
def isNumber (v : JsValue) : Bool :=
  match v with
  | .vNum _ => true
  | _ => false

/-- Modelled from the spec: `isBoolean(v)` is true iff `v` is a boolean type. -/
def isBoolean (v : JsValue) : Bool :=
  match v with
  | .vBool _ => true
  | _ => false

/-! ### Calendar arithmetic

Proleptic-Gregorian conversions between epoch days and civil dates, used to
model the JavaScript date built-ins on instants given as milliseconds since
the Unix epoch. -/

/-- Gregorian leap-year rule. -/
def isLeapYear (y : ℤ) : Bool :=
  y % 4 == 0 && (y % 100 != 0 || y % 400 == 0)

/-- Number of days in month `m` (1-12) of year `y`. -/
def daysInMonth (y : ℤ) (m : ℕ) : ℕ :=
  if m == 2 then (if isLeapYear y then 29 else 28)
  else if m == 4 || m == 6 || m == 9 || m == 11 then 30
  else 31

/-- Days since 1970-01-01 of the civil date `y-m-d`. -/
def daysFromCivil (y : ℤ) (m d : ℕ) : ℤ :=
  let yy : ℤ := if m ≤ 2 then y - 1 else y
  let era : ℤ := yy.fdiv 400
  let yoe : ℕ := (yy - era * 400).toNat
  let mp : ℕ := if m > 2 then m - 3 else m + 9
  let doy : ℕ := (153 * mp + 2) / 5 + d - 1
  let doe : ℕ := yoe * 365 + yoe / 4 - yoe / 100 + doy
  era * 146097 + (doe : ℤ) - 719468

/-- Civil date `(y, m, d)` of a count of days since 1970-01-01. -/
def civilFromDays (z : ℤ) : ℤ × ℕ × ℕ :=
  let zz : ℤ := z + 719468
  let era : ℤ := zz.fdiv 146097
  let doe : ℕ := (zz - era * 146097).toNat
  let yoe : ℕ := (doe - doe / 1460 + doe / 36524 - doe / 146096) / 365
  let y : ℤ := (yoe : ℤ) + era * 400
  let doy : ℕ := doe - (365 * yoe + yoe / 4 - yoe / 100)
  let mp : ℕ := (5 * doy + 2) / 153
  let d : ℕ := doy - (153 * mp + 2) / 5 + 1
  let m : ℕ := if mp < 10 then mp + 3 else mp - 9
  (if m ≤ 2 then y + 1 else y, m, d)

/-- Three-letter English weekday name, `0` = Sunday. -/
def weekdayName (w : ℕ) : String :=
  match w with
  | 0 => "Sun" | 1 => "Mon" | 2 => "Tue" | 3 => "Wed"
  | 4 => "Thu" | 5 => "Fri" | _ => "Sat"

/-- Three-letter English month name, `1` = January. -/
def monthName (m : ℕ) : String :=
  match m with
  | 1 => "Jan" | 2 => "Feb" | 3 => "Mar" | 4 => "Apr" | 5 => "May" | 6 => "Jun"
  | 7 => "Jul" | 8 => "Aug" | 9 => "Sep" | 10 => "Oct" | 11 => "Nov" | _ => "Dec"

/-- Two-digit zero-padded rendering of a number below 100. -/
def pad2 (n : ℕ) : String :=
  if n < 10 then "0" ++ toString n else toString n

/-- Four-digit zero-padded rendering of a year (negative years rendered with a
sign; outside the fragment the claims exercise). -/
def padYear (y : ℤ) : String :=
  if y < 0 then "-" ++ toString (-y)
  else if y < 10 then "000" ++ toString y
  else if y < 100 then "00" ++ toString y
  else if y < 1000 then "0" ++ toString y
  else toString y

/-- Models the JavaScript built-in `Date.prototype.toUTCString` on an instant
given as milliseconds since the Unix epoch: the fixed
`"Www, DD Mmm YYYY HH:MM:SS GMT"` display format. -/
def toUTCString (ms : ℤ) : String :=
  let days : ℤ := ms.fdiv 86400000
  let msOfDay : ℕ := (ms.fmod 86400000).toNat
  let c := civilFromDays days
  let wd : ℕ := ((days + 4).fmod 7).toNat
  let secOfDay : ℕ := msOfDay / 1000
  weekdayName wd ++ ", " ++ pad2 c.2.2 ++ " " ++ monthName c.2.1 ++ " " ++
    padYear c.1 ++ " " ++ pad2 (secOfDay / 3600) ++ ":" ++
    pad2 (secOfDay % 3600 / 60) ++ ":" ++ pad2 (secOfDay % 60) ++ " GMT"

/-! ### Character-list parsing helpers -/

/-- Numeric value of a decimal digit, `none` on other characters. -/
def digitVal (c : Char) : Option ℕ :=
  if c.isDigit then some (c.toNat - 48) else none

/-- Consume exactly `n` decimal digits, returning their value. -/
def takeDigits : ℕ → List Char → Option (ℕ × List Char)
  | 0, cs => some (0, cs)
  | _ + 1, [] => none
  | n + 1, c :: cs =>
    match digitVal c with
    | some d =>
      match takeDigits n cs with
      | some (v, rest) => some (d * 10 ^ n + v, rest)
      | none => none
    | none => none

/-- Consume one expected character. -/
def expectChar (c : Char) : List Char → Option (List Char)
  | x :: xs => if x == c then some xs else none
  | [] => none

/-- Consume an expected sequence of literal characters. -/
def expectChars : List Char → List Char → Option (List Char)
  | [], rest => some rest
  | p :: ps, x :: xs => if x == p then expectChars ps xs else none
  | _ :: _, [] => none

/-- Consume an expected literal string. -/
def expectStr (pat : String) (cs : List Char) : Option (List Char) :=
  expectChars pat.toList cs

/-! ### Date strings

The spec (§4.1) describes `isISODateString` as acceptance of the ISO-8601
extended format and `isUTCDateString` as acceptance of the UTC display format
produced by formatting a date to its UTC string representation
(`toUTCString`). Instants are milliseconds since the Unix epoch. -/

/-- Range checks and instant computation shared by the tail of the two date
grammars: the parsed fields must form a real calendar date and time of day,
and the remaining input must be exhausted. -/
def dateFieldsToMs (y mo d h mi sec msv : ℕ) (r : List Char) : Option ℤ :=
  if r.isEmpty && 1 ≤ mo && mo ≤ 12 && 1 ≤ d && d ≤ daysInMonth (y : ℤ) mo &&
      h ≤ 23 && mi ≤ 59 && sec ≤ 59 then
    some (daysFromCivil (y : ℤ) mo d * 86400000 +
      (((h * 3600 + mi * 60 + sec) * 1000 + msv : ℕ) : ℤ))
  else none

/-- Parse an ISO-8601 extended UTC timestamp
`YYYY-MM-DDTHH:MM:SS(.mmm)?Z` (four-digit years; the fragment of the grammar
the normalizer's inputs exercise) into epoch milliseconds. -/
def dateFromISO (s : String) : Option ℤ :=
  match takeDigits 4 s.toList with
  | none => none
  | some (y, r) =>
  match expectChar '-' r with
  | none => none
  | some r =>
  match takeDigits 2 r with
  | none => none
  | some (mo, r) =>
  match expectChar '-' r with
  | none => none
  | some r =>
  match takeDigits 2 r with
  | none => none
  | some (d, r) =>
  match expectChar 'T' r with
  | none => none
  | some r =>
  match takeDigits 2 r with
  | none => none
  | some (h, r) =>
  match expectChar ':' r with
  | none => none
  | some r =>
  match takeDigits 2 r with
  | none => none
  | some (mi, r) =>
  match expectChar ':' r with
  | none => none
  | some r =>
  match takeDigits 2 r with
  | none => none
  | some (sec, r) =>
  match (match expectChar '.' r with
         | some r2 => takeDigits 3 r2
         | none => some (0, r)) with
  | none => none
  | some (msv, r) =>
  match expectChar 'Z' r with
  | none => none
  | some r => dateFieldsToMs y mo d h mi sec msv r

/-- Index of a three-letter weekday name. -/
def weekdayIdx (s : String) : Option ℕ :=
  if s == "Sun" then some 0 else if s == "Mon" then some 1
  else if s == "Tue" then some 2 else if s == "Wed" then some 3
  else if s == "Thu" then some 4 else if s == "Fri" then some 5
  else if s == "Sat" then some 6 else none

/-- Index of a three-letter month name. -/
def monthIdx (s : String) : Option ℕ :=
  if s == "Jan" then some 1 else if s == "Feb" then some 2
  else if s == "Mar" then some 3 else if s == "Apr" then some 4
  else if s == "May" then some 5 else if s == "Jun" then some 6
  else if s == "Jul" then some 7 else if s == "Aug" then some 8
  else if s == "Sep" then some 9 else if s == "Oct" then some 10
  else if s == "Nov" then some 11 else if s == "Dec" then some 12
  else none

/-- Parse a UTC display string `Www, DD Mmm YYYY HH:MM:SS GMT` into epoch
milliseconds (the weekday token is checked for membership but not for
consistency here; `isUTCDateString` closes that gap by re-rendering). -/
def dateFromUTC (s : String) : Option ℤ :=
  let cs := s.toList
  match weekdayIdx (String.mk (cs.take 3)) with
  | none => none
  | some _ =>
  match expectChar ',' (cs.drop 3) with
  | none => none
  | some r =>
  match expectChar ' ' r with
  | none => none
  | some r =>
  match takeDigits 2 r with
  | none => none
  | some (d, r) =>
  match expectChar ' ' r with
  | none => none
  | some r =>
  match monthIdx (String.mk (r.take 3)) with
  | none => none
  | some mo =>
  match expectChar ' ' (r.drop 3) with
  | none => none
  | some r =>
  match takeDigits 4 r with
  | none => none
  | some (y, r) =>
  match expectChar ' ' r with
  | none => none
  | some r =>
  match takeDigits 2 r with
  | none => none
  | some (h, r) =>
  match expectChar ':' r with
  | none => none
  | some r =>
  match takeDigits 2 r with
  | none => none
  | some (mi, r) =>
  match expectChar ':' r with
  | none => none
  | some r =>
  match takeDigits 2 r with
  | none => none
  | some (sec, r) =>
  match expectStr " GMT" r with
  | none => none
  | some r => dateFieldsToMs y mo d h mi sec 0 r

/-- Modelled from the spec: a string is an ISO date string iff it is
parseable under the ISO-8601 extended grammar (`dateFromISO`). -/
def isISODateStr (s : String) : Bool :=
  (dateFromISO s).isSome

/-- Modelled from the spec: a string is a UTC date string iff it is a string
the UTC display formatter produces, i.e. it parses under the display grammar
and re-rendering its instant gives the string back. -/
def isUTCDateStr (s : String) : Bool :=
  match dateFromUTC s with
  | some t => toUTCString t == s
  | none => false

/-- Modelled from the spec: `isISODateString` on an arbitrary value — false on
non-strings. -/
def isISODateString (v : JsValue) : Bool :=
  match v with
  | .vStr s => isISODateStr s
  | _ => false

/-- Modelled from the spec: `isUTCDateString` on an arbitrary value — false on
non-strings. -/
def isUTCDateString (v : JsValue) : Bool :=
  match v with
  | .vStr s => isUTCDateStr s
  | _ => false

/-- Models `new Date(s).toUTCString()` for the date strings this layer feeds
it (ISO or UTC display format); other inputs give the `Invalid Date`
rendering. -/
def jsNewDateToUTCString (s : String) : String :=
  match dateFromISO s with
  | some t => toUTCString t
  | none =>
    match dateFromUTC s with
    | some t => toUTCString t
    | none => "Invalid Date"

/-! ### The Number built-ins -/

/-- Accumulate leading decimal digits: value, digit count and the rest. -/
def grabDigits : List Char → ℕ × ℕ × List Char
  | [] => (0, 0, [])
  | c :: cs =>
    match digitVal c with
    | some d =>
      let r := grabDigits cs
      (d * 10 ^ r.2.1 + r.1, r.2.1 + 1, r.2.2)
    | none => (0, 0, c :: cs)

/-- Models the JavaScript built-in `Number(...)` on strings, on the plain
decimal fragment (optional sign, digits, optional fraction; no whitespace
trimming, hex or exponent — the inputs this layer validates are plain decimal
literals). `none` plays the role of `NaN`. -/
def jsToNumber (s : String) : Option JsNum :=
  let step1 : ℤ × List Char :=
    match s.toList with
    | '-' :: r => (-1, r)
    | '+' :: r => (1, r)
    | cs => (1, cs)
  let ip := grabDigits step1.2
  match ip.2.2 with
  | [] => if ip.2.1 == 0 then none else some ⟨step1.1 * ip.1, 0⟩
  | '.' :: r =>
    let fp := grabDigits r
    match fp.2.2 with
    | [] =>
      if ip.2.1 + fp.2.1 == 0 then none
      else some ⟨step1.1 * (ip.1 * 10 ^ fp.2.1 + fp.1), fp.2.1⟩
    | _ => none
  | _ => none

/-- Models `Number(v)` on the values that reach it in the version normalizer
(strings and numbers). -/
def jsNumberOfValue (v : JsValue) : Option JsNum :=
  match v with
  | .vNum n => some n
  | .vStr s => jsToNumber s
  | _ => none

/-- Models `Number.isInteger` on the result of `Number(...)`; `none` (`NaN`)
is not an integer. -/
def jsIsInteger (q : Option JsNum) : Bool :=
  match q with
  | some n => n.mant % (10 ^ n.scale : ℤ) == 0
  | none => false

/-! ### JSON serialization (`JSON.stringify`) -/

/-- Opening brace as a string. -/
def obrace : String := String.mk [Char.ofNat 123]

/-- Closing brace as a string. -/
def cbrace : String := String.mk [Char.ofNat 125]

/-- Left-pad a digit string with zeros to a width. -/
def padZeros (w : ℕ) (s : String) : String :=
  if s.length < w then String.mk (List.replicate (w - s.length) '0') ++ s else s

/-- Drop trailing zero characters. -/
def dropTrailingZeros (s : String) : String :=
  String.mk (s.toList.reverse.dropWhile (fun c => c == '0')).reverse

/-- Decimal rendering of a JavaScript number, modelling how JavaScript prints
the numbers this layer handles (a plain decimal with no trailing fractional
zeros). -/
def jsNumToString (n : JsNum) : String :=
  let p : ℤ := 10 ^ n.scale
  let sign := if n.mant < 0 then "-" else ""
  let a : ℤ := |n.mant|
  let frac := dropTrailingZeros (padZeros n.scale (toString (a % p)))
  sign ++ toString (a / p) ++ (if frac == "" then "" else "." ++ frac)

/-- Quote and escape a string as a JSON string literal (quote and backslash
escapes; control characters pass through in this fragment). -/
def jsonQuote (s : String) : String :=
  "\"" ++ String.mk (s.toList.foldr
    (fun c acc =>
      if c == '"' then '\\' :: '"' :: acc
      else if c == '\\' then '\\' :: '\\' :: acc
      else c :: acc) []) ++ "\""

/-- Comma-join a list of rendered pieces. -/
def joinComma : List String → String
  | [] => ""
  | [x] => x
  | x :: y :: xs => x ++ "," ++ joinComma (y :: xs)

/-- Fueled body of `JSON.stringify`: `undefined` entries of objects are
omitted, `undefined` array elements render as `null`, strings are quoted. -/
def stringifyFuel : ℕ → JsValue → String
  | 0, _ => ""
  | fuel + 1, v =>
    match v with
    | .vUndefined => "null"
    | .vNull => "null"
    | .vBool b => if b then "true" else "false"
    | .vNum n => jsNumToString n
    | .vStr s => jsonQuote s
    | .vArr xs => "[" ++ joinComma (xs.map (stringifyFuel fuel)) ++ "]"
    | .vObj fs =>
      let pres := fs.filter (fun p => !p.2.isUndef)
      obrace ++
        joinComma (pres.map (fun p => jsonQuote p.1 ++ ":" ++ stringifyFuel fuel p.2)) ++
        cbrace

/-- Models `` `${JSON.stringify(v)}` `` as the source's error messages use it:
`JSON.stringify` of `undefined` is `undefined`, which the template literal
renders as the text `undefined`. -/
def jsonStringifyInterp (v : JsValue) : String :=
  if v.isUndef then "undefined" else stringifyFuel 1000 v

/-! ### JSON parsing (`JSON.parse`)

A fueled recursive-descent parser for the JSON grammar (string escapes limited
to the single-character ones; no `\u` sequences — outside the fragment the
claims exercise). Error messages model the engine's `SyntaxError` texts. -/

/-- Skip JSON whitespace. -/
def skipWs : List Char → List Char
  | c :: cs =>
    if c == ' ' || c == '\n' || c == '\t' || c == '\r' then skipWs cs else c :: cs
  | [] => []

/-- Single-character JSON string escapes. -/
def jsonUnescape (e : Char) : Option Char :=
  if e == '"' then some '"'
  else if e == '\\' then some '\\'
  else if e == '/' then some '/'
  else if e == 'n' then some '\n'
  else if e == 't' then some '\t'
  else if e == 'r' then some '\r'
  else if e == 'b' then some (Char.ofNat 8)
  else if e == 'f' then some (Char.ofNat 12)
  else none

/-- Parse the remainder of a JSON string literal (after the opening quote):
content and rest of input. -/
def parseStrLit : ℕ → List Char → Except String (List Char × List Char)
  | 0, _ => .error "Unterminated string in JSON"
  | _ + 1, [] => .error "Unterminated string in JSON"
  | fuel + 1, c :: cs =>
    if c == '"' then .ok ([], cs)
    else if c == '\\' then
      match cs with
      | [] => .error "Unterminated string in JSON"
      | e :: cs2 =>
        match jsonUnescape e with
        | some ec =>
          match parseStrLit fuel cs2 with
          | .ok (content, rest) => .ok (ec :: content, rest)
          | .error msg => .error msg
        | none => .error "Bad escaped character in JSON"
    else
      match parseStrLit fuel cs with
      | .ok (content, rest) => .ok (c :: content, rest)
      | .error msg => .error msg

/-- Parse the exponent suffix of a JSON number and scale the mantissa. -/
def parseJsonExp (n : JsNum) (cs : List Char) : Except String (JsValue × List Char) :=
  let sgnE : Bool × List Char :=
    match cs with
    | '-' :: r => (true, r)
    | '+' :: r => (false, r)
    | r => (false, r)
  let ep := grabDigits sgnE.2
  if ep.2.1 == 0 then .error "Exponent part is missing a number in JSON"
  else if sgnE.1 then .ok (.vNum ⟨n.mant, n.scale + ep.1⟩, ep.2.2)
  else .ok (.vNum ⟨n.mant * 10 ^ ep.1, n.scale⟩, ep.2.2)

/-- Parse a JSON number (optional sign, integer part without leading zeros,
optional fraction, optional exponent). -/
def parseJsonNumber (cs : List Char) : Except String (JsValue × List Char) :=
  let sgn : ℤ × List Char :=
    match cs with
    | '-' :: r => (-1, r)
    | r => (1, r)
  let ip := grabDigits sgn.2
  if ip.2.1 == 0 then .error "No number after minus sign in JSON"
  else if ip.2.1 > 1 && sgn.2.headD ' ' == '0' then .error "Unexpected number in JSON"
  else
    let afterInt : JsNum × List Char :=
      match ip.2.2 with
      | '.' :: r => let fp := grabDigits r
                    if fp.2.1 == 0 then (⟨(ip.1 : ℤ), 0⟩, '.' :: r)
                    else (⟨(ip.1 : ℤ) * 10 ^ fp.2.1 + fp.1, fp.2.1⟩, fp.2.2)
      | r => (⟨(ip.1 : ℤ), 0⟩, r)
    match afterInt.2 with
    | '.' :: _ => .error "Unterminated fractional number in JSON"
    | 'e' :: r => parseJsonExp ⟨sgn.1 * afterInt.1.mant, afterInt.1.scale⟩ r
    | 'E' :: r => parseJsonExp ⟨sgn.1 * afterInt.1.mant, afterInt.1.scale⟩ r
    | r => .ok (.vNum ⟨sgn.1 * afterInt.1.mant, afterInt.1.scale⟩, r)

/-- Parser modes: a value, the rest of an array after an element is due, or
the rest of an object after a member is due. -/
inductive JsonMode where
  | val : JsonMode
  | arrRest (acc : List JsValue) : JsonMode
  | objRest (acc : List (String × JsValue)) : JsonMode

/-- The fueled JSON parser. -/
def parseJson : ℕ → JsonMode → List Char → Except String (JsValue × List Char)
  | 0, _, _ => .error "JSON input exhausted the parser fuel"
  | fuel + 1, .val, cs =>
    match skipWs cs with
    | [] => .error "Unexpected end of JSON input"
    | c :: cs1 =>
      if c == 'n' then
        match expectStr "ull" cs1 with
        | some r => .ok (.vNull, r)
        | none => .error ("Unexpected token " ++ String.mk [c] ++ " in JSON")
      else if c == 't' then
        match expectStr "rue" cs1 with
        | some r => .ok (.vBool true, r)
        | none => .error ("Unexpected token " ++ String.mk [c] ++ " in JSON")
      else if c == 'f' then
        match expectStr "alse" cs1 with
        | some r => .ok (.vBool false, r)
        | none => .error ("Unexpected token " ++ String.mk [c] ++ " in JSON")
      else if c == '"' then
        match parseStrLit (cs1.length + 1) cs1 with
        | .ok (content, rest) => .ok (.vStr (String.mk content), rest)
        | .error msg => .error msg
      else if c == '[' then
        match skipWs cs1 with
        | ']' :: r => .ok (.vArr [], r)
        | r => parseJson fuel (.arrRest []) r
      else if c == Char.ofNat 123 then
        match skipWs cs1 with
        | c2 :: r =>
          if c2 == Char.ofNat 125 then .ok (.vObj [], r)
          else parseJson fuel (.objRest []) (c2 :: r)
        | [] => .error "Unexpected end of JSON input"
      else if c == '-' || c.isDigit then parseJsonNumber (c :: cs1)
      else .error ("Unexpected token " ++ String.mk [c] ++ " in JSON")
  | fuel + 1, .arrRest acc, cs =>
    match parseJson fuel .val cs with
    | .error msg => .error msg
    | .ok (v, r) =>
      match skipWs r with
      | ',' :: r2 => parseJson fuel (.arrRest (acc ++ [v])) r2
      | ']' :: r2 => .ok (.vArr (acc ++ [v]), r2)
      | _ => .error "Expected comma or closing bracket after array element in JSON"
  | fuel + 1, .objRest acc, cs =>
    match skipWs cs with
    | '"' :: r =>
      match parseStrLit (r.length + 1) r with
      | .error msg => .error msg
      | .ok (key, r2) =>
        match skipWs r2 with
        | ':' :: r3 =>
          match parseJson fuel .val r3 with
          | .error msg => .error msg
          | .ok (v, r4) =>
            match skipWs r4 with
            | ',' :: r5 => parseJson fuel (.objRest (acc ++ [(String.mk key, v)])) r5
            | c5 :: r5 =>
              if c5 == Char.ofNat 125 then .ok (.vObj (acc ++ [(String.mk key, v)]), r5)
              else .error "Expected comma or closing brace after property value in JSON"
            | [] => .error "Unexpected end of JSON input"
        | _ => .error "Expected colon after property name in JSON"
    | c :: _ => .error ("Unexpected token " ++ String.mk [c] ++ " in JSON")
    | [] => .error "Unexpected end of JSON input"

/-- Models the JavaScript built-in `JSON.parse`: parse one value and require
the rest of the input to be whitespace. The error string stands for the
`SyntaxError` detail the engine appends to the failure message. -/
def jsonParse (s : String) : Except String JsValue :=
  match parseJson (2 * s.length + 8) .val s.toList with
  | .error msg => .error msg
  | .ok (v, r) =>
    if (skipWs r).isEmpty then .ok v
    else .error "Unexpected non-whitespace character after JSON"

/-! ### Errors

`FirebaseRemoteConfigError` (from `remote-config-utils`, not among the
sources) carries an error code and a message; the normalization layer only
ever constructs it with the code `invalid-argument`. -/

/-- An error of the Remote Config layer: code and message. -/
structure FirebaseRemoteConfigError where
  code : String
  message : String
deriving Repr, DecidableEq

/-! ### The Version normalizer (`VersionImpl`, lines 267-387)

Each `if (typeof version.x !== 'undefined') { ...check...; this.x = ... }`
block of the constructor becomes one check function from the raw field value
to `Except` of the normalized field (`none` when the field was absent). -/

/-- The normalized Version record, fields in source declaration order.
`versionNumber` keeps the raw string-or-number value, as the source does. -/
structure VersionImpl where
  versionNumber : Option JsValue
  updateTime : Option String
  updateOrigin : Option String
  updateType : Option String
  updateUser : Option JsValue
  description : Option String
  rollbackSource : Option String
  isLegacy : Option Bool

/-- Lines 286-299: `versionNumber` must be a non-empty string or a number,
and `Number(versionNumber)` must be an integer; the original value is kept. -/
def checkVersionNumber (v : JsValue) : Except FirebaseRemoteConfigError (Option JsValue) :=
  if v.isUndef then .ok none
  else if !(isNonEmptyString v) && !(isNumber v) then
    .error ⟨"invalid-argument",
      "Version number must be a non-empty string in int64 format or a number"⟩
  else if !(jsIsInteger (jsNumberOfValue v)) then
    .error ⟨"invalid-argument",
      "Version number must be an integer or a string in int64 format"⟩
  else .ok (some v)

/-- A present optional field that must be a non-empty string (lines 301-317,
328-344: `updateOrigin`, `updateType`, `description`, `rollbackSource`). -/
def checkOptionalString (msg : String) (v : JsValue) : Except FirebaseRemoteConfigError (Option String) :=
  if v.isUndef then .ok none
  else if !(isNonEmptyString v) then .error ⟨"invalid-argument", msg⟩
  else .ok (some v.asString)

/-- Lines 319-326: `updateUser` must be a non-null object and is kept as-is. -/
def checkUpdateUser (v : JsValue) : Except FirebaseRemoteConfigError (Option JsValue) :=
  if v.isUndef then .ok none
  else if !(isNonNullObject v) then
    .error ⟨"invalid-argument", "Version update user must be a non-null object"⟩
  else .ok (some v)

/-- Lines 346-353: `isLegacy` must be a boolean. -/
def checkIsLegacy (v : JsValue) : Except FirebaseRemoteConfigError (Option Bool) :=
  if v.isUndef then .ok none
  else if !(isBoolean v) then
    .error ⟨"invalid-argument", "Version.isLegacy must be a boolean"⟩
  else .ok (some v.asBool)

/-- Lines 358-369: `updateTime` must satisfy the ISO or the UTC date-string
format; an ISO string is converted with `new Date(...).toUTCString()`, and in
the remaining (UTC-format) case the source assigns nothing, leaving the
normalized `updateTime` undefined. -/
def checkUpdateTime (v : JsValue) : Except FirebaseRemoteConfigError (Option String) :=
  if v.isUndef then .ok none
  else if !(isISODateString v) && !(isUTCDateString v) then
    .error ⟨"invalid-argument", "Version update time must be a valid date string"⟩
  else if isISODateString v then .ok (some (jsNewDateToUTCString v.asString))
  else .ok none

/-- The `VersionImpl` constructor (lines 279-370): reject non-object input,
then run the per-field checks in source order. -/
def VersionImpl.new (version : JsValue) : Except FirebaseRemoteConfigError VersionImpl :=
  if !(isNonNullObject version) then
    .error ⟨"invalid-argument",
      "Invalid Remote Config version instance: " ++ jsonStringifyInterp version⟩
  else
    match checkVersionNumber (version.getField "versionNumber") with
    | .error e => .error e
    | .ok versionNumber =>
    match checkOptionalString "Version update origin must be a non-empty string"
        (version.getField "updateOrigin") with
    | .error e => .error e
    | .ok updateOrigin =>
    match checkOptionalString "Version update type must be a non-empty string"
        (version.getField "updateType") with
    | .error e => .error e
    | .ok updateType =>
    match checkUpdateUser (version.getField "updateUser") with
    | .error e => .error e
    | .ok updateUser =>
    match checkOptionalString "Version description must be a non-empty string"
        (version.getField "description") with
    | .error e => .error e
    | .ok description =>
    match checkOptionalString "Version rollback source must be a non-empty string"
        (version.getField "rollbackSource") with
    | .error e => .error e
    | .ok rollbackSource =>
    match checkIsLegacy (version.getField "isLegacy") with
    | .error e => .error e
    | .ok isLegacy =>
    match checkUpdateTime (version.getField "updateTime") with
    | .error e => .error e
    | .ok updateTime =>
      .ok ⟨versionNumber, updateTime, updateOrigin, updateType, updateUser,
        description, rollbackSource, isLegacy⟩

/-- Wrap an optional string field back into a JS value. -/
def optStrJs (o : Option String) : JsValue :=
  match o with
  | some s => .vStr s
  | none => .vUndefined

/-- Wrap an optional boolean field back into a JS value. -/
def optBoolJs (o : Option Bool) : JsValue :=
  match o with
  | some b => .vBool b
  | none => .vUndefined

/-- Wrap an optional raw field back into a JS value. -/
def optJs (o : Option JsValue) : JsValue :=
  match o with
  | some v => v
  | none => .vUndefined

/-- `VersionImpl.toJSON` (lines 375-386): a record with all eight fields, in
source order, absent ones as `undefined`. -/
def VersionImpl.toJSON (v : VersionImpl) : JsValue :=
  .vObj [
    ("versionNumber", optJs v.versionNumber),
    ("updateOrigin", optStrJs v.updateOrigin),
    ("updateType", optStrJs v.updateType),
    ("updateUser", optJs v.updateUser),
    ("description", optStrJs v.description),
    ("rollbackSource", optStrJs v.rollbackSource),
    ("isLegacy", optBoolJs v.isLegacy),
    ("updateTime", optStrJs v.updateTime)]

/-! ### The Template normalizer (`RemoteConfigTemplateImpl`, lines 185-262) -/

/-- The normalized template: the three passed-through collections, the
internally stored etag and the optional normalized version. -/
structure RemoteConfigTemplateImpl where
  parameters : JsValue
  parameterGroups : JsValue
  conditions : JsValue
  etagInternal : String
  version : Option VersionImpl

/-- Lines 203-212: `parameters` must be a non-null object when present and
defaults to an empty object. -/
def checkParameters (v : JsValue) : Except FirebaseRemoteConfigError JsValue :=
  if v.isUndef then .ok (.vObj [])
  else if !(isNonNullObject v) then
    .error ⟨"invalid-argument", "Remote Config parameters must be a non-null object"⟩
  else .ok v

/-- Lines 214-223: `parameterGroups`, same rule as `parameters`. -/
def checkParameterGroups (v : JsValue) : Except FirebaseRemoteConfigError JsValue :=
  if v.isUndef then .ok (.vObj [])
  else if !(isNonNullObject v) then
    .error ⟨"invalid-argument", "Remote Config parameter groups must be a non-null object"⟩
  else .ok v

/-- Lines 225-234: `conditions` must be an array when present and defaults to
an empty array. -/
def checkConditions (v : JsValue) : Except FirebaseRemoteConfigError JsValue :=
  if v.isUndef then .ok (.vArr [])
  else if !(isArray v) then
    .error ⟨"invalid-argument", "Remote Config conditions must be an array"⟩
  else .ok v

/-- Lines 236-238: a present `version` runs through the Version normalizer. -/
def checkVersionField (v : JsValue) : Except FirebaseRemoteConfigError (Option VersionImpl) :=
  if v.isUndef then .ok none
  else
    match VersionImpl.new v with
    | .error e => .error e
    | .ok w => .ok (some w)

/-- The `RemoteConfigTemplateImpl` constructor (lines 193-239): input must be
a non-null object with a non-empty string `etag`; the collection fields and
the version then run through their checks in source order. -/
def RemoteConfigTemplateImpl.new (config : JsValue) : Except FirebaseRemoteConfigError RemoteConfigTemplateImpl :=
  if !(isNonNullObject config) || !(isNonEmptyString (config.getField "etag")) then
    .error ⟨"invalid-argument",
      "Invalid Remote Config template: " ++ jsonStringifyInterp config⟩
  else
    match checkParameters (config.getField "parameters") with
    | .error e => .error e
    | .ok parameters =>
    match checkParameterGroups (config.getField "parameterGroups") with
    | .error e => .error e
    | .ok parameterGroups =>
    match checkConditions (config.getField "conditions") with
    | .error e => .error e
    | .ok conditions =>
    match checkVersionField (config.getField "version") with
    | .error e => .error e
    | .ok version =>
      .ok ⟨parameters, parameterGroups, conditions,
        (config.getField "etag").asString, version⟩

/-- The `etag` accessor (lines 246-248): exposes the internal read-only
field. -/
def RemoteConfigTemplateImpl.etag (t : RemoteConfigTemplateImpl) : String :=
  t.etagInternal

/-- `RemoteConfigTemplateImpl.toJSON` (lines 253-261): all five fields, in
source order, the version as the embedded record's JS value. -/
def RemoteConfigTemplateImpl.toJSON (t : RemoteConfigTemplateImpl) : JsValue :=
  .vObj [
    ("conditions", t.conditions),
    ("parameters", t.parameters),
    ("parameterGroups", t.parameterGroups),
    ("etag", .vStr t.etag),
    ("version", match t.version with
      | some v => v.toJSON
      | none => .vUndefined)]

/-! ### The service facade (`RemoteConfig`) -/

/-- A raw `listVersions` transport response: an optional list of raw version
records and an optional page token. -/
structure ListVersionsResponse where
  versions : Option (List JsValue)
  nextPageToken : Option String

/-- The result the facade returns for `listVersions`. -/
structure ListVersionsResult where
  versions : List VersionImpl
  nextPageToken : Option String

/-- Normalize each raw version of a response list in order, failing on the
first bad entry (models `.map(version => new VersionImpl(version))`, whose
thrown error rejects the promise). -/
def wrapVersions : List JsValue → Except FirebaseRemoteConfigError (List VersionImpl)
  | [] => .ok []
  | v :: vs =>
    match VersionImpl.new v with
    | .error e => .error e
    | .ok w =>
      match wrapVersions vs with
      | .error e => .error e
      | .ok ws => .ok (w :: ws)

/-- `RemoteConfig.listVersions` (lines 144-152), given the transport client's
response: `versions?.map(v => new VersionImpl(v)) ?? []` and the response's
`nextPageToken` passed through. -/
def RemoteConfig.listVersions (resp : ListVersionsResponse) : Except FirebaseRemoteConfigError ListVersionsResult :=
  match resp.versions with
  | none => .ok ⟨[], resp.nextPageToken⟩
  | some vs =>
    match wrapVersions vs with
    | .error e => .error e
    | .ok ws => .ok ⟨ws, resp.nextPageToken⟩

/-- `RemoteConfig.createTemplateFromJSON` (lines 161-179): the JSON text must
be a non-empty string, must parse, and the parsed value runs through the
template normalizer. -/
def RemoteConfig.createTemplateFromJSON (json : String) : Except FirebaseRemoteConfigError RemoteConfigTemplateImpl :=
  if json == "" then
    .error ⟨"invalid-argument", "JSON string must be a valid non-empty string"⟩
  else
    match jsonParse json with
    | .error e =>
      .error ⟨"invalid-argument",
        "Failed to parse the JSON string: " ++ json ++ ". " ++ e⟩
    | .ok template => RemoteConfigTemplateImpl.new template

/-! ### Field-validity predicates and normalization shapes

Decidable statements of when each raw field passes its check, and what the
check produces then; the lemmas below tie them to the check functions. -/

/-- A raw optional string field passes: absent or a non-empty string. -/
def strFieldOk (v : JsValue) : Bool :=
  v.isUndef || isNonEmptyString v

/-- A raw `versionNumber` passes: absent, or a non-empty string or number
whose `Number(...)` image is an integer. -/
def vnumFieldOk (v : JsValue) : Bool :=
  v.isUndef || ((isNonEmptyString v || isNumber v) && jsIsInteger (jsNumberOfValue v))

/-- A raw `updateUser` passes: absent or a non-null object. -/
def userFieldOk (v : JsValue) : Bool :=
  v.isUndef || isNonNullObject v

/-- A raw `isLegacy` passes: absent or a boolean. -/
def legacyFieldOk (v : JsValue) : Bool :=
  v.isUndef || isBoolean v

/-- A raw `updateTime` passes: absent, or in ISO or UTC date-string format. -/
def timeFieldOk (v : JsValue) : Bool :=
  v.isUndef || isISODateString v || isUTCDateString v

/-- All raw fields of a version record other than `versionNumber` pass. -/
def versionRestOk (version : JsValue) : Bool :=
  strFieldOk (version.getField "updateOrigin") &&
  strFieldOk (version.getField "updateType") &&
  userFieldOk (version.getField "updateUser") &&
  strFieldOk (version.getField "description") &&
  strFieldOk (version.getField "rollbackSource") &&
  legacyFieldOk (version.getField "isLegacy") &&
  timeFieldOk (version.getField "updateTime")

/-- A raw version record passes the whole Version normalizer. -/
def versionAllOk (version : JsValue) : Bool :=
  isNonNullObject version &&
  vnumFieldOk (version.getField "versionNumber") &&
  versionRestOk version

/-- Normalized shape of a passing `versionNumber`: the raw value, kept. -/
def vnumNorm (v : JsValue) : Option JsValue :=
  if v.isUndef then none else some v

/-- Normalized shape of a passing optional string field. -/
def strNorm (v : JsValue) : Option String :=
  if v.isUndef then none else some v.asString

/-- Normalized shape of a passing `updateUser`. -/
def userNorm (v : JsValue) : Option JsValue :=
  if v.isUndef then none else some v

/-- Normalized shape of a passing `isLegacy`. -/
def legacyNorm (v : JsValue) : Option Bool :=
  if v.isUndef then none else some v.asBool

/-- Normalized shape of a passing `updateTime`: ISO input is re-rendered in
UTC display format, UTC input is dropped (the source assigns nothing). -/
def timeNorm (v : JsValue) : Option String :=
  if v.isUndef then none
  else if isISODateString v then some (jsNewDateToUTCString v.asString)
  else none

/-- The normalized version a passing raw record yields. -/
def versionNormOf (version : JsValue) : VersionImpl :=
  ⟨vnumNorm (version.getField "versionNumber"),
   timeNorm (version.getField "updateTime"),
   strNorm (version.getField "updateOrigin"),
   strNorm (version.getField "updateType"),
   userNorm (version.getField "updateUser"),
   strNorm (version.getField "description"),
   strNorm (version.getField "rollbackSource"),
   legacyNorm (version.getField "isLegacy")⟩

theorem checkVersionNumber_ok (v : JsValue) (h : vnumFieldOk v = true) :
    checkVersionNumber v = .ok (vnumNorm v) := by
  unfold vnumFieldOk at h
  unfold checkVersionNumber vnumNorm
  cases hu : v.isUndef with
  | true => simp
  | false =>
    rw [hu] at h
    simp only [Bool.false_or, Bool.and_eq_true, Bool.or_eq_true] at h
    simp only [Bool.false_eq_true, if_false]
    rw [show (!(isNonEmptyString v) && !(isNumber v)) = false by
          rcases h.1 with h1 | h1 <;> simp [h1]]
    rw [h.2]
    simp

theorem checkVersionNumber_error (v : JsValue) (hp : v.isUndef = false)
    (h : vnumFieldOk v = false) :
    ∃ e, checkVersionNumber v = .error e ∧ e.code = "invalid-argument" := by
  unfold vnumFieldOk at h
  unfold checkVersionNumber
  rw [hp] at h ⊢
  simp only [Bool.false_or, Bool.and_eq_false_iff] at h
  simp only [Bool.false_eq_true, if_false]
  rcases h with h1 | h1
  · rw [show (!(isNonEmptyString v) && !(isNumber v)) = true by
        rcases Bool.or_eq_false_iff.mp h1 with ⟨ha, hb⟩; simp [ha, hb]]
    exact ⟨_, rfl, rfl⟩
  · cases hsn : (!(isNonEmptyString v) && !(isNumber v)) with
    | true => exact ⟨_, rfl, rfl⟩
    | false => rw [h1]; exact ⟨_, rfl, rfl⟩

theorem checkOptionalString_ok (msg : String) (v : JsValue) (h : strFieldOk v = true) :
    checkOptionalString msg v = .ok (strNorm v) := by
  unfold strFieldOk at h
  unfold checkOptionalString strNorm
  cases hu : v.isUndef with
  | true => simp
  | false => rw [hu] at h; simp only [Bool.false_or] at h; simp [h]

theorem checkOptionalString_error (msg : String) (v : JsValue) (hp : v.isUndef = false)
    (h : strFieldOk v = false) :
    checkOptionalString msg v = .error ⟨"invalid-argument", msg⟩ := by
  unfold strFieldOk at h
  unfold checkOptionalString
  rw [hp] at h ⊢
  simp only [Bool.false_or] at h
  simp [h]

theorem checkUpdateUser_ok (v : JsValue) (h : userFieldOk v = true) :
    checkUpdateUser v = .ok (userNorm v) := by
  unfold userFieldOk at h
  unfold checkUpdateUser userNorm
  cases hu : v.isUndef with
  | true => simp
  | false => rw [hu] at h; simp only [Bool.false_or] at h; simp [h]

theorem checkIsLegacy_ok (v : JsValue) (h : legacyFieldOk v = true) :
    checkIsLegacy v = .ok (legacyNorm v) := by
  unfold legacyFieldOk at h
  unfold checkIsLegacy legacyNorm
  cases hu : v.isUndef with
  | true => simp
  | false => rw [hu] at h; simp only [Bool.false_or] at h; simp [h]

theorem checkUpdateTime_ok (v : JsValue) (h : timeFieldOk v = true) :
    checkUpdateTime v = .ok (timeNorm v) := by
  unfold timeFieldOk at h
  unfold checkUpdateTime timeNorm
  cases hu : v.isUndef with
  | true => simp
  | false =>
    rw [hu] at h
    simp only [Bool.false_or, Bool.or_eq_true] at h
    simp only [Bool.false_eq_true, if_false]
    rcases h with h1 | h1
    · simp [h1]
    · cases hiso : isISODateString v <;> simp [hiso, h1]

theorem checkUpdateTime_error (v : JsValue) (hp : v.isUndef = false)
    (h : timeFieldOk v = false) :
    checkUpdateTime v = .error ⟨"invalid-argument", "Version update time must be a valid date string"⟩ := by
  unfold timeFieldOk at h
  unfold checkUpdateTime
  rw [hp] at h ⊢
  simp only [Bool.false_or, Bool.or_eq_false_iff] at h
  simp [h.1, h.2]

theorem versionNew_ok (version : JsValue) (h : versionAllOk version = true) :
    VersionImpl.new version = .ok (versionNormOf version) := by
  unfold versionAllOk versionRestOk at h
  simp only [Bool.and_eq_true, and_assoc] at h
  obtain ⟨h0, h1, h2, h3, h4, h5, h6, h7, h8⟩ := h
  unfold VersionImpl.new versionNormOf
  rw [h0]
  simp only [Bool.not_true, Bool.false_eq_true, if_false]
  rw [checkVersionNumber_ok _ h1,
    checkOptionalString_ok _ _ h2,
    checkOptionalString_ok _ _ h3,
    checkUpdateUser_ok _ h4,
    checkOptionalString_ok _ _ h5,
    checkOptionalString_ok _ _ h6,
    checkIsLegacy_ok _ h7,
    checkUpdateTime_ok _ h8]

theorem checkVersionNumber_code (v : JsValue) (e : FirebaseRemoteConfigError)
    (h : checkVersionNumber v = .error e) : e.code = "invalid-argument" := by
  unfold checkVersionNumber at h
  repeat any_goals split at h
  all_goals first | (cases h; rfl) | simp at h

theorem checkOptionalString_code (msg : String) (v : JsValue) (e : FirebaseRemoteConfigError)
    (h : checkOptionalString msg v = .error e) : e.code = "invalid-argument" := by
  unfold checkOptionalString at h
  repeat any_goals split at h
  all_goals first | (cases h; rfl) | simp at h

theorem checkUpdateUser_code (v : JsValue) (e : FirebaseRemoteConfigError)
    (h : checkUpdateUser v = .error e) : e.code = "invalid-argument" := by
  unfold checkUpdateUser at h
  repeat any_goals split at h
  all_goals first | (cases h; rfl) | simp at h

theorem checkIsLegacy_code (v : JsValue) (e : FirebaseRemoteConfigError)
    (h : checkIsLegacy v = .error e) : e.code = "invalid-argument" := by
  unfold checkIsLegacy at h
  repeat any_goals split at h
  all_goals first | (cases h; rfl) | simp at h

theorem checkUpdateTime_code (v : JsValue) (e : FirebaseRemoteConfigError)
    (h : checkUpdateTime v = .error e) : e.code = "invalid-argument" := by
  unfold checkUpdateTime at h
  repeat any_goals split at h
  all_goals first | (cases h; rfl) | simp at h

theorem versionNew_error_code (version : JsValue) (e : FirebaseRemoteConfigError)
    (h : VersionImpl.new version = .error e) : e.code = "invalid-argument" := by
  unfold VersionImpl.new at h
  repeat any_goals split at h
  all_goals first
    | (cases h; rfl)
    | (cases h; exact checkVersionNumber_code _ _ (by assumption))
    | (cases h; exact checkOptionalString_code _ _ _ (by assumption))
    | (cases h; exact checkUpdateUser_code _ _ (by assumption))
    | (cases h; exact checkIsLegacy_code _ _ (by assumption))
    | (cases h; exact checkUpdateTime_code _ _ (by assumption))
    | simp at h

/-! ### Template-level validity predicates and characterization -/

/-- A raw `parameters`/`parameterGroups` field passes: absent or a non-null
object. -/
def paramFieldOk (v : JsValue) : Bool :=
  v.isUndef || isNonNullObject v

/-- A raw `conditions` field passes: absent or an array. -/
def condFieldOk (v : JsValue) : Bool :=
  v.isUndef || isArray v

/-- A raw `version` field passes: absent or accepted by the Version
normalizer's checks. -/
def versionFieldOk (v : JsValue) : Bool :=
  v.isUndef || versionAllOk v

/-- A raw template record passes the whole Template normalizer. -/
def templateAllOk (config : JsValue) : Bool :=
  isNonNullObject config &&
  isNonEmptyString (config.getField "etag") &&
  paramFieldOk (config.getField "parameters") &&
  paramFieldOk (config.getField "parameterGroups") &&
  condFieldOk (config.getField "conditions") &&
  versionFieldOk (config.getField "version")

/-- Normalized shape of a passing collection field: the default when absent,
the raw value otherwise. -/
def collNorm (dflt v : JsValue) : JsValue :=
  if v.isUndef then dflt else v

/-- Normalized shape of a passing `version` field. -/
def versionFieldNorm (v : JsValue) : Option VersionImpl :=
  if v.isUndef then none else some (versionNormOf v)

/-- The normalized template a passing raw record yields. -/
def templateNormOf (config : JsValue) : RemoteConfigTemplateImpl :=
  ⟨collNorm (.vObj []) (config.getField "parameters"),
   collNorm (.vObj []) (config.getField "parameterGroups"),
   collNorm (.vArr []) (config.getField "conditions"),
   (config.getField "etag").asString,
   versionFieldNorm (config.getField "version")⟩

theorem checkParameters_ok (v : JsValue) (h : paramFieldOk v = true) :
    checkParameters v = .ok (collNorm (.vObj []) v) := by
  unfold paramFieldOk at h
  unfold checkParameters collNorm
  cases hu : v.isUndef with
  | true => simp
  | false => rw [hu] at h; simp only [Bool.false_or] at h; simp [h]

theorem checkParameters_error (v : JsValue) (hp : v.isUndef = false)
    (h : paramFieldOk v = false) :
    checkParameters v =
      .error ⟨"invalid-argument", "Remote Config parameters must be a non-null object"⟩ := by
  unfold paramFieldOk at h
  unfold checkParameters
  rw [hp] at h ⊢
  simp only [Bool.false_or] at h
  simp [h]

theorem checkParameterGroups_ok (v : JsValue) (h : paramFieldOk v = true) :
    checkParameterGroups v = .ok (collNorm (.vObj []) v) := by
  unfold paramFieldOk at h
  unfold checkParameterGroups collNorm
  cases hu : v.isUndef with
  | true => simp
  | false => rw [hu] at h; simp only [Bool.false_or] at h; simp [h]

theorem checkParameterGroups_error (v : JsValue) (hp : v.isUndef = false)
    (h : paramFieldOk v = false) :
    checkParameterGroups v =
      .error ⟨"invalid-argument", "Remote Config parameter groups must be a non-null object"⟩ := by
  unfold paramFieldOk at h
  unfold checkParameterGroups
  rw [hp] at h ⊢
  simp only [Bool.false_or] at h
  simp [h]

theorem checkConditions_ok (v : JsValue) (h : condFieldOk v = true) :
    checkConditions v = .ok (collNorm (.vArr []) v) := by
  unfold condFieldOk at h
  unfold checkConditions collNorm
  cases hu : v.isUndef with
  | true => simp
  | false => rw [hu] at h; simp only [Bool.false_or] at h; simp [h]

theorem checkConditions_error (v : JsValue) (hp : v.isUndef = false)
    (h : condFieldOk v = false) :
    checkConditions v =
      .error ⟨"invalid-argument", "Remote Config conditions must be an array"⟩ := by
  unfold condFieldOk at h
  unfold checkConditions
  rw [hp] at h ⊢
  simp only [Bool.false_or] at h
  simp [h]

theorem checkVersionField_ok (v : JsValue) (h : versionFieldOk v = true) :
    checkVersionField v = .ok (versionFieldNorm v) := by
  unfold versionFieldOk at h
  unfold checkVersionField versionFieldNorm
  cases hu : v.isUndef with
  | true => simp
  | false =>
    rw [hu] at h
    simp only [Bool.false_or] at h
    simp only [Bool.false_eq_true, if_false]
    rw [versionNew_ok _ h]

theorem templateNew_ok (config : JsValue) (h : templateAllOk config = true) :
    RemoteConfigTemplateImpl.new config = .ok (templateNormOf config) := by
  unfold templateAllOk at h
  simp only [Bool.and_eq_true, and_assoc] at h
  obtain ⟨h0, h1, h2, h3, h4, h5⟩ := h
  unfold RemoteConfigTemplateImpl.new templateNormOf
  rw [h0, h1]
  simp only [Bool.not_true, Bool.or_self, Bool.false_eq_true, if_false]
  rw [checkParameters_ok _ h2,
    checkParameterGroups_ok _ h3,
    checkConditions_ok _ h4,
    checkVersionField_ok _ h5]

theorem checkParameters_code (v : JsValue) (e : FirebaseRemoteConfigError)
    (h : checkParameters v = .error e) : e.code = "invalid-argument" := by
  unfold checkParameters at h
  repeat any_goals split at h
  all_goals first | (cases h; rfl) | simp at h

theorem checkParameterGroups_code (v : JsValue) (e : FirebaseRemoteConfigError)
    (h : checkParameterGroups v = .error e) : e.code = "invalid-argument" := by
  unfold checkParameterGroups at h
  repeat any_goals split at h
  all_goals first | (cases h; rfl) | simp at h

theorem checkConditions_code (v : JsValue) (e : FirebaseRemoteConfigError)
    (h : checkConditions v = .error e) : e.code = "invalid-argument" := by
  unfold checkConditions at h
  repeat any_goals split at h
  all_goals first | (cases h; rfl) | simp at h

set_option linter.unusedTactic false in
theorem checkVersionField_code (v : JsValue) (e : FirebaseRemoteConfigError)
    (h : checkVersionField v = .error e) : e.code = "invalid-argument" := by
  unfold checkVersionField at h
  repeat any_goals split at h
  all_goals first
    | (cases h; rfl)
    | (cases h; exact versionNew_error_code _ _ (by assumption))
    | simp at h

set_option linter.unusedTactic false in
theorem templateNew_error_code (config : JsValue) (e : FirebaseRemoteConfigError)
    (h : RemoteConfigTemplateImpl.new config = .error e) : e.code = "invalid-argument" := by
  unfold RemoteConfigTemplateImpl.new at h
  repeat any_goals split at h
  all_goals first
    | (cases h; rfl)
    | (cases h; exact checkParameters_code _ _ (by assumption))
    | (cases h; exact checkParameterGroups_code _ _ (by assumption))
    | (cases h; exact checkConditions_code _ _ (by assumption))
    | (cases h; exact checkVersionField_code _ _ (by assumption))
    | simp at h

/-! ### Inversion lemmas: what a successful construction implies -/

theorem isNonNullObject_of_field_defined (v : JsValue) (k : String)
    (h : (v.getField k).isUndef = false) : isNonNullObject v = true := by
  cases v <;> simp [JsValue.getField, JsValue.isUndef, isNonNullObject] at h ⊢

theorem checkParameters_ok_inv (v w : JsValue) (h : checkParameters v = .ok w) :
    paramFieldOk v = true := by
  unfold checkParameters at h
  unfold paramFieldOk
  repeat any_goals split at h
  all_goals simp_all

theorem checkParameterGroups_ok_inv (v w : JsValue) (h : checkParameterGroups v = .ok w) :
    paramFieldOk v = true := by
  unfold checkParameterGroups at h
  unfold paramFieldOk
  repeat any_goals split at h
  all_goals simp_all

theorem checkConditions_ok_inv (v w : JsValue) (h : checkConditions v = .ok w) :
    condFieldOk v = true := by
  unfold checkConditions at h
  unfold condFieldOk
  repeat any_goals split at h
  all_goals simp_all

theorem templateNew_ok_inv (config : JsValue) (t : RemoteConfigTemplateImpl)
    (h : RemoteConfigTemplateImpl.new config = .ok t) :
    paramFieldOk (config.getField "parameters") = true ∧
    paramFieldOk (config.getField "parameterGroups") = true ∧
    condFieldOk (config.getField "conditions") = true := by
  unfold RemoteConfigTemplateImpl.new at h
  repeat any_goals split at h
  all_goals first
    | exact ⟨checkParameters_ok_inv _ _ (by assumption),
        checkParameterGroups_ok_inv _ _ (by assumption),
        checkConditions_ok_inv _ _ (by assumption)⟩
    | simp at h

theorem checkOptionalString_ok_inv (msg : String) (v : JsValue) (w : Option String)
    (h : checkOptionalString msg v = .ok w) : strFieldOk v = true := by
  unfold checkOptionalString at h
  unfold strFieldOk
  repeat any_goals split at h
  all_goals simp_all

theorem versionNew_ok_inv (version : JsValue) (r : VersionImpl)
    (h : VersionImpl.new version = .ok r) :
    strFieldOk (version.getField "updateOrigin") = true ∧
    strFieldOk (version.getField "updateType") = true := by
  unfold VersionImpl.new at h
  repeat any_goals split at h
  all_goals first
    | exact ⟨checkOptionalString_ok_inv _ _ _ (by assumption),
        checkOptionalString_ok_inv _ _ _ (by assumption)⟩
    | simp at h

/-! ### Order-preserving wrapping of version lists -/

theorem wrapVersions_ok_pointwise (vs : List JsValue) (ws : List VersionImpl)
    (h : wrapVersions vs = .ok ws) :
    ws.length = vs.length ∧
    ∀ i (h1 : i < vs.length) (h2 : i < ws.length),
      VersionImpl.new (vs.get ⟨i, h1⟩) = .ok (ws.get ⟨i, h2⟩) := by
  induction vs generalizing ws with
  | nil =>
    unfold wrapVersions at h
    cases h
    exact ⟨rfl, fun i h1 h2 => absurd h1 (Nat.not_lt_zero i)⟩
  | cons v vt ih =>
    unfold wrapVersions at h
    cases hv : VersionImpl.new v with
    | error e => rw [hv] at h; simp at h
    | ok w =>
      rw [hv] at h
      cases hws : wrapVersions vt with
      | error e => rw [hws] at h; simp at h
      | ok wt =>
        rw [hws] at h
        cases h
        obtain ⟨hlen, hpt⟩ := ih wt hws
        refine ⟨by simp [hlen], ?_⟩
        intro i h1 h2
        cases i with
        | zero => exact hv
        | succ j =>
          simp only [List.get_cons_succ]
          exact hpt j (by simpa using h1) (by simpa using h2)

/-! ### Claims -/

/-- C3: template construction fails with `invalid-argument` when the input is
not a non-null object or when its `etag` field is missing, not a string, or
empty; on a non-null-object input with a non-empty string `etag` and otherwise
well-formed fields it succeeds and the resulting template's `etag` equals the
input's. -/
theorem C3_template_etag_validation :
    (∀ config : JsValue, isNonNullObject config = false →
      ∃ e, RemoteConfigTemplateImpl.new config = .error e ∧ e.code = "invalid-argument") ∧
    (∀ config : JsValue, isNonEmptyString (config.getField "etag") = false →
      ∃ e, RemoteConfigTemplateImpl.new config = .error e ∧ e.code = "invalid-argument") ∧
    (∀ (config : JsValue) (etag : String), config.getField "etag" = .vStr etag →
      templateAllOk config = true →
      ∃ t, RemoteConfigTemplateImpl.new config = .ok t ∧ t.etag = etag) := by
  refine ⟨?_, ?_, ?_⟩
  · intro config h
    unfold RemoteConfigTemplateImpl.new
    rw [h]
    simp only [Bool.not_false, Bool.true_or, if_true]
    exact ⟨_, rfl, rfl⟩
  · intro config h
    unfold RemoteConfigTemplateImpl.new
    rw [h]
    simp only [Bool.not_false, Bool.or_true, if_true]
    exact ⟨_, rfl, rfl⟩
  · intro config etag he h
    refine ⟨templateNormOf config, templateNew_ok config h, ?_⟩
    simp [RemoteConfigTemplateImpl.etag, templateNormOf, he, JsValue.asString]

/-- Witness for C3 at a concrete input: a bare-etag object normalizes and
exposes that etag. -/
theorem C3_template_etag_validation_witness :
    ∃ t, RemoteConfigTemplateImpl.new (.vObj [("etag", .vStr "abc")]) = .ok t ∧
      t.etag = "abc" :=
  C3_template_etag_validation.2.2 (.vObj [("etag", .vStr "abc")]) "abc" rfl (by decide)

/-- C4: a present `versionNumber` that is not integer-valued (not a non-empty
numeric-literal string or number denoting an integer) makes construction fail
with `invalid-argument`; an integer-valued string or integer number is
accepted and kept in its original representation. -/
theorem C4_versionNumber :
    (∀ (version vn : JsValue), version.getField "versionNumber" = vn →
      vn.isUndef = false → vnumFieldOk vn = false →
      ∃ e, VersionImpl.new version = .error e ∧ e.code = "invalid-argument") ∧
    (∀ (version vn : JsValue), version.getField "versionNumber" = vn →
      vn.isUndef = false → versionAllOk version = true →
      ∃ r, VersionImpl.new version = .ok r ∧ r.versionNumber = some vn) := by
  constructor
  · intro version vn hf hp hbad
    have hobj : isNonNullObject version = true :=
      isNonNullObject_of_field_defined version "versionNumber" (by rw [hf]; exact hp)
    obtain ⟨e, he, hc⟩ := checkVersionNumber_error vn hp hbad
    unfold VersionImpl.new
    rw [hobj]
    simp only [Bool.not_true, Bool.false_eq_true, if_false]
    rw [hf, he]
    exact ⟨e, rfl, hc⟩
  · intro version vn hf hp h
    refine ⟨versionNormOf version, versionNew_ok version h, ?_⟩
    simp [versionNormOf, vnumNorm, hf, hp]

/-- Witness for C4: the string `"3.5"` is rejected, the number `42` is
accepted and kept as a number. -/
theorem C4_versionNumber_witness :
    (∃ e, VersionImpl.new (.vObj [("versionNumber", .vStr "3.5")]) = .error e ∧
      e.code = "invalid-argument") ∧
    (∃ r, VersionImpl.new (.vObj [("versionNumber", .vNum ⟨42, 0⟩)]) = .ok r ∧
      r.versionNumber = some (.vNum ⟨42, 0⟩)) :=
  ⟨C4_versionNumber.1 _ (.vStr "3.5") rfl rfl (by decide),
   C4_versionNumber.2 _ (.vNum ⟨42, 0⟩) rfl rfl (by decide)⟩

/-- Counterexample to C5: `updateOrigin: "FOO"` is not a member of the claimed
enum, yet version construction succeeds and keeps the value — no enum
membership is checked at runtime. -/
theorem C5_enum_counterexample :
    ∃ r, VersionImpl.new (.vObj [("updateOrigin", .vStr "FOO")]) = .ok r ∧
      r.updateOrigin = some "FOO" :=
  ⟨⟨none, none, some "FOO", none, none, none, none, none⟩, rfl, rfl⟩

/-- C5 as amended: a present `updateOrigin` (resp. `updateType`) makes
construction fail with `invalid-argument` exactly when it is not a non-empty
string; any non-empty string — enum member or not — is accepted and kept. -/
theorem C5_updateOrigin_updateType :
    (∀ (version v : JsValue), version.getField "updateOrigin" = v →
      v.isUndef = false → isNonEmptyString v = false →
      ∃ e, VersionImpl.new version = .error e ∧ e.code = "invalid-argument") ∧
    (∀ (version v : JsValue), version.getField "updateType" = v →
      v.isUndef = false → isNonEmptyString v = false →
      ∃ e, VersionImpl.new version = .error e ∧ e.code = "invalid-argument") ∧
    (∀ version : JsValue, versionAllOk version = true →
      ∃ r, VersionImpl.new version = .ok r ∧
        r.updateOrigin = strNorm (version.getField "updateOrigin") ∧
        r.updateType = strNorm (version.getField "updateType")) := by
  refine ⟨?_, ?_, ?_⟩
  · intro version v hf hp hne
    cases hr : VersionImpl.new version with
    | error e => exact ⟨e, rfl, versionNew_error_code _ _ hr⟩
    | ok r =>
      exfalso
      have hok := (versionNew_ok_inv _ _ hr).1
      rw [hf] at hok
      unfold strFieldOk at hok
      rw [hp, hne] at hok
      simp at hok
  · intro version v hf hp hne
    cases hr : VersionImpl.new version with
    | error e => exact ⟨e, rfl, versionNew_error_code _ _ hr⟩
    | ok r =>
      exfalso
      have hok := (versionNew_ok_inv _ _ hr).2
      rw [hf] at hok
      unfold strFieldOk at hok
      rw [hp, hne] at hok
      simp at hok
  · intro version h
    exact ⟨versionNormOf version, versionNew_ok version h, rfl, rfl⟩

/-- Witness for the amended C5: an empty-string `updateOrigin` is rejected, a
present non-empty `updateType` is kept. -/
theorem C5_updateOrigin_updateType_witness :
    (∃ e, VersionImpl.new (.vObj [("updateOrigin", .vStr "")]) = .error e ∧
      e.code = "invalid-argument") ∧
    (∃ r, VersionImpl.new (.vObj [("updateType", .vStr "ROLLBACK")]) = .ok r ∧
      r.updateOrigin = strNorm ((JsValue.vObj [("updateType", .vStr "ROLLBACK")]).getField "updateOrigin") ∧
      r.updateType = strNorm ((JsValue.vObj [("updateType", .vStr "ROLLBACK")]).getField "updateType")) :=
  ⟨C5_updateOrigin_updateType.1 _ (.vStr "") rfl rfl (by decide),
   C5_updateOrigin_updateType.2.2 _ (by decide)⟩

/-- C6: absent `parameters`/`parameterGroups`/`conditions` default to an empty
mapping or sequence in the normalized template; present ones must be a
non-null object (resp. an array) or construction fails with
`invalid-argument`, and valid ones pass through unchanged with no per-element
validation. -/
theorem C6_collections :
    (∀ config : JsValue, templateAllOk config = true →
      ∃ t, RemoteConfigTemplateImpl.new config = .ok t ∧
        t.parameters = collNorm (.vObj []) (config.getField "parameters") ∧
        t.parameterGroups = collNorm (.vObj []) (config.getField "parameterGroups") ∧
        t.conditions = collNorm (.vArr []) (config.getField "conditions")) ∧
    (∀ (config v : JsValue), config.getField "parameters" = v →
      v.isUndef = false → isNonNullObject v = false →
      ∃ e, RemoteConfigTemplateImpl.new config = .error e ∧ e.code = "invalid-argument") ∧
    (∀ (config v : JsValue), config.getField "parameterGroups" = v →
      v.isUndef = false → isNonNullObject v = false →
      ∃ e, RemoteConfigTemplateImpl.new config = .error e ∧ e.code = "invalid-argument") ∧
    (∀ (config v : JsValue), config.getField "conditions" = v →
      v.isUndef = false → isArray v = false →
      ∃ e, RemoteConfigTemplateImpl.new config = .error e ∧ e.code = "invalid-argument") := by
  refine ⟨?_, ?_, ?_, ?_⟩
  · intro config h
    exact ⟨templateNormOf config, templateNew_ok config h, rfl, rfl, rfl⟩
  · intro config v hf hp hno
    cases hr : RemoteConfigTemplateImpl.new config with
    | error e => exact ⟨e, rfl, templateNew_error_code _ _ hr⟩
    | ok t =>
      exfalso
      have hok := (templateNew_ok_inv _ _ hr).1
      rw [hf] at hok
      unfold paramFieldOk at hok
      rw [hp, hno] at hok
      simp at hok
  · intro config v hf hp hno
    cases hr : RemoteConfigTemplateImpl.new config with
    | error e => exact ⟨e, rfl, templateNew_error_code _ _ hr⟩
    | ok t =>
      exfalso
      have hok := (templateNew_ok_inv _ _ hr).2.1
      rw [hf] at hok
      unfold paramFieldOk at hok
      rw [hp, hno] at hok
      simp at hok
  · intro config v hf hp hna
    cases hr : RemoteConfigTemplateImpl.new config with
    | error e => exact ⟨e, rfl, templateNew_error_code _ _ hr⟩
    | ok t =>
      exfalso
      have hok := (templateNew_ok_inv _ _ hr).2.2
      rw [hf] at hok
      unfold condFieldOk at hok
      rw [hp, hna] at hok
      simp at hok

/-- Witness for C6: with `parameters` present (and arbitrary inside) and the
other two collections absent, the parameters pass through and the others
default; a null `conditions` is rejected. -/
theorem C6_collections_witness :
    (∃ t, RemoteConfigTemplateImpl.new
        (.vObj [("etag", .vStr "e"), ("parameters", .vObj [("p1", .vNull)])]) = .ok t ∧
      t.parameters = collNorm (.vObj [])
        ((JsValue.vObj [("etag", .vStr "e"), ("parameters", .vObj [("p1", .vNull)])]).getField "parameters") ∧
      t.parameterGroups = collNorm (.vObj [])
        ((JsValue.vObj [("etag", .vStr "e"), ("parameters", .vObj [("p1", .vNull)])]).getField "parameterGroups") ∧
      t.conditions = collNorm (.vArr [])
        ((JsValue.vObj [("etag", .vStr "e"), ("parameters", .vObj [("p1", .vNull)])]).getField "conditions")) ∧
    (∃ e, RemoteConfigTemplateImpl.new (.vObj [("etag", .vStr "e"), ("conditions", .vNull)]) =
      .error e ∧ e.code = "invalid-argument") :=
  ⟨C6_collections.1 _ (by decide),
   C6_collections.2.2.2 _ .vNull rfl rfl rfl⟩

/-- C7: `createTemplateFromJSON` rejects the empty string with
`invalid-argument`, rejects unparseable text with `invalid-argument` carrying
the parse-error detail, and on a minimal etag-only JSON object yields a
template with empty parameters, parameter groups and conditions. -/
theorem C7_createTemplateFromJSON :
    (RemoteConfig.createTemplateFromJSON "" =
      .error ⟨"invalid-argument", "JSON string must be a valid non-empty string"⟩) ∧
    (RemoteConfig.createTemplateFromJSON "\x7bnot json" =
      .error ⟨"invalid-argument",
        "Failed to parse the JSON string: \x7bnot json. Unexpected token n in JSON"⟩) ∧
    (∃ t, RemoteConfig.createTemplateFromJSON "\x7b\"etag\":\"abc\"\x7d" = .ok t ∧
      t.parameters = .vObj [] ∧ t.parameterGroups = .vObj [] ∧
      t.conditions = .vArr [] ∧ t.etag = "abc") :=
  ⟨rfl, rfl, ⟨⟨.vObj [], .vObj [], .vArr [], "abc", none⟩, rfl, rfl, rfl, rfl, rfl⟩⟩

/-- C8: `listVersions` turns an absent or empty raw version list into an empty
sequence with the response's page token passed through; a present list is
wrapped entry by entry through the Version normalizer in order. -/
theorem C8_listVersions (resp : ListVersionsResponse) :
    (resp.versions = none →
      RemoteConfig.listVersions resp = .ok ⟨[], resp.nextPageToken⟩) ∧
    (resp.versions = some [] →
      RemoteConfig.listVersions resp = .ok ⟨[], resp.nextPageToken⟩) ∧
    (∀ (vs : List JsValue) (ws : List VersionImpl),
      resp.versions = some vs → wrapVersions vs = .ok ws →
      RemoteConfig.listVersions resp = .ok ⟨ws, resp.nextPageToken⟩ ∧
      ws.length = vs.length ∧
      ∀ i (h1 : i < vs.length) (h2 : i < ws.length),
        VersionImpl.new (vs.get ⟨i, h1⟩) = .ok (ws.get ⟨i, h2⟩)) := by
  refine ⟨?_, ?_, ?_⟩
  · intro h
    unfold RemoteConfig.listVersions
    rw [h]
  · intro h
    unfold RemoteConfig.listVersions
    rw [h]
    rfl
  · intro vs ws hv hw
    obtain ⟨hlen, hpt⟩ := wrapVersions_ok_pointwise vs ws hw
    refine ⟨?_, hlen, hpt⟩
    unfold RemoteConfig.listVersions
    simp only [hv, hw]

/-- Witness for C8: a response with one raw version and a page token. -/
theorem C8_listVersions_witness :
    RemoteConfig.listVersions
        ⟨some [.vObj [("description", .vStr "d")]], some "tok"⟩ =
      .ok ⟨[⟨none, none, none, none, none, some "d", none, none⟩], some "tok"⟩ ∧
    RemoteConfig.listVersions (⟨none, some "tok2"⟩ : ListVersionsResponse) =
      .ok ⟨[], some "tok2"⟩ :=
  ⟨(C8_listVersions _).2.2 [.vObj [("description", .vStr "d")]]
      [⟨none, none, none, none, none, some "d", none, none⟩] rfl rfl |>.1,
   (C8_listVersions _).1 rfl⟩

/-- C9: the etag a successfully constructed template exposes through its
accessor is exactly the one supplied at construction (the embedding's
templates are immutable records, and no operation of the module produces a
modified template, so it cannot change afterwards), and `toJSON` returns a
record with all five fields — conditions, parameters, parameterGroups, the
read-only etag, and version. -/
theorem C9_etag_readonly (config : JsValue) (etag : String)
    (he : config.getField "etag" = .vStr etag) (h : templateAllOk config = true) :
    ∃ t, RemoteConfigTemplateImpl.new config = .ok t ∧
      t.etag = etag ∧
      t.toJSON = .vObj [
        ("conditions", t.conditions),
        ("parameters", t.parameters),
        ("parameterGroups", t.parameterGroups),
        ("etag", .vStr etag),
        ("version", match t.version with
          | some v => v.toJSON
          | none => .vUndefined)] ∧
      (t.toJSON).getField "etag" = .vStr etag := by
  have hetag : (templateNormOf config).etag = etag := by
    simp [RemoteConfigTemplateImpl.etag, templateNormOf, he, JsValue.asString]
  refine ⟨templateNormOf config, templateNew_ok config h, hetag, ?_, ?_⟩
  · unfold RemoteConfigTemplateImpl.toJSON
    rw [hetag]
  · unfold RemoteConfigTemplateImpl.toJSON
    rw [hetag]
    simp [JsValue.getField]

/-- Witness for C9 at a concrete input. -/
theorem C9_etag_readonly_witness :
    ∃ t, RemoteConfigTemplateImpl.new (.vObj [("etag", .vStr "tag-9")]) = .ok t ∧
      t.etag = "tag-9" ∧
      t.toJSON = .vObj [
        ("conditions", t.conditions),
        ("parameters", t.parameters),
        ("parameterGroups", t.parameterGroups),
        ("etag", .vStr "tag-9"),
        ("version", match t.version with
          | some v => v.toJSON
          | none => .vUndefined)] ∧
      (t.toJSON).getField "etag" = .vStr "tag-9" :=
  C9_etag_readonly (.vObj [("etag", .vStr "tag-9")]) "tag-9" rfl (by decide)

/-- C10: a non-empty JSON text that parses to a value that is not a non-null,
non-array object is rejected by `createTemplateFromJSON` with
`invalid-argument`, coming from the template constructor's object check. -/
theorem C10_parsed_nonobject (s : String) (v : JsValue) (hs : (s == "") = false)
    (hp : jsonParse s = .ok v) (hv : isNonNullObject v = false) :
    ∃ e, RemoteConfig.createTemplateFromJSON s = .error e ∧ e.code = "invalid-argument" := by
  unfold RemoteConfig.createTemplateFromJSON
  rw [hs]
  simp only [Bool.false_eq_true, if_false, hp]
  unfold RemoteConfigTemplateImpl.new
  rw [hv]
  simp only [Bool.not_false, Bool.true_or, if_true]
  exact ⟨_, rfl, rfl⟩

/-- Witness for C10 on the claim's five example texts. -/
theorem C10_parsed_nonobject_witness :
    (∃ e, RemoteConfig.createTemplateFromJSON "null" = .error e ∧ e.code = "invalid-argument") ∧
    (∃ e, RemoteConfig.createTemplateFromJSON "42" = .error e ∧ e.code = "invalid-argument") ∧
    (∃ e, RemoteConfig.createTemplateFromJSON "\"abc\"" = .error e ∧ e.code = "invalid-argument") ∧
    (∃ e, RemoteConfig.createTemplateFromJSON "true" = .error e ∧ e.code = "invalid-argument") ∧
    (∃ e, RemoteConfig.createTemplateFromJSON "[]" = .error e ∧ e.code = "invalid-argument") :=
  ⟨C10_parsed_nonobject "null" .vNull rfl rfl rfl,
   C10_parsed_nonobject "42" (.vNum ⟨42, 0⟩) rfl rfl rfl,
   C10_parsed_nonobject "\"abc\"" (.vStr "abc") rfl rfl rfl,
   C10_parsed_nonobject "true" (.vBool true) rfl rfl rfl,
   C10_parsed_nonobject "[]" (.vArr []) rfl rfl rfl⟩

/-- C1, evaluated at the failing input: an ISO `updateTime` is normalized to
its UTC display rendering, and an invalid `updateTime` is rejected, as the
claim states — but a valid UTC-format (non-ISO) `updateTime` is validated and
then silently dropped: the normalized `updateTime` is absent rather than equal
to the input string, because the source's UTC branch assigns nothing. -/
theorem C1_updateTime_utc_dropped :
    (VersionImpl.new (.vObj [("updateTime", .vStr "2020-06-01T12:00:00.000Z")]) =
      .ok ⟨none, some "Mon, 01 Jun 2020 12:00:00 GMT", none, none, none, none, none, none⟩) ∧
    (isUTCDateStr "Mon, 01 Jun 2020 12:00:00 GMT" = true) ∧
    (isISODateStr "Mon, 01 Jun 2020 12:00:00 GMT" = false) ∧
    (VersionImpl.new (.vObj [("updateTime", .vStr "Mon, 01 Jun 2020 12:00:00 GMT")]) =
      .ok ⟨none, none, none, none, none, none, none, none⟩) ∧
    (∃ e, VersionImpl.new (.vObj [("updateTime", .vStr "not a date")]) = .error e ∧
      e.code = "invalid-argument") :=
  ⟨rfl, rfl, rfl, rfl, ⟨⟨"invalid-argument", "Version update time must be a valid date string"⟩, rfl, rfl⟩⟩

/-- C2, evaluated at the failing input: normalizing a template whose version
carries an ISO `updateTime` yields a UTC-rendered `updateTime`; re-normalizing
its serialization succeeds but loses that `updateTime` (the UTC-format string
is validated and dropped), so `normalize(serialize(T))` does not reproduce `T`
and re-normalizing an already-normalized Version is not idempotent. -/
theorem C2_roundtrip_updateTime_lost :
    RemoteConfigTemplateImpl.new (.vObj [("etag", .vStr "etag-1"),
        ("version", .vObj [("updateTime", .vStr "2020-06-01T12:00:00.000Z")])]) =
      .ok ⟨.vObj [], .vObj [], .vArr [], "etag-1",
        some ⟨none, some "Mon, 01 Jun 2020 12:00:00 GMT", none, none, none, none, none, none⟩⟩ ∧
    RemoteConfigTemplateImpl.new
        (RemoteConfigTemplateImpl.toJSON ⟨.vObj [], .vObj [], .vArr [], "etag-1",
          some ⟨none, some "Mon, 01 Jun 2020 12:00:00 GMT", none, none, none, none, none, none⟩⟩) =
      .ok ⟨.vObj [], .vObj [], .vArr [], "etag-1",
        some ⟨none, none, none, none, none, none, none, none⟩⟩ ∧
    (some (⟨none, some "Mon, 01 Jun 2020 12:00:00 GMT", none, none, none, none, none, none⟩ : VersionImpl) ≠
      some (⟨none, none, none, none, none, none, none, none⟩ : VersionImpl)) := by
  refine ⟨rfl, rfl, ?_⟩
  intro hcontra
  have h1 := Option.some.inj hcontra
  have h2 := congrArg VersionImpl.updateTime h1
  exact Option.noConfusion h2
